import Mathlib

/-!
Shallow embedding of the roboczy home-energy system (src/daily_windows.py,
src/pv_forecast.py, src/mqtt_sa.py) and verification of the frozen claims.

Modelling choices, uniform across the file:
* Python floats are modelled as exact rationals (ℚ); all times handled by the
  code are whole minutes, where the two agree.
* A Python "HH:MM" time string is modelled by the pair of integers it prints
  (structure HHMM); formatting and re-parsing become functions on that pair.
* External effects (the astral library, the HTTP endpoint, the filesystem,
  the wall clock) are passed in as explicit arguments, so each Python
  function becomes a pure Lean function of its inputs plus those effects.
-/

namespace DailyWindows

/-- The "HH:MM" string produced by `f"{hour:02d}:{minute:02d}"` (and by
`strftime("%H:%M")`), modelled as the pair of printed numbers. -/
structure HHMM where
  h : ℤ
  m : ℤ
deriving DecidableEq, Repr

/-- Total minutes denoted by an HH:MM value, used to compare times of day. -/
def hhmmMinutes (t : HHMM) : ℤ := t.h * 60 + t.m

/-- Python `int()` on a rational: truncation toward zero. -/
def pyint (q : ℚ) : ℤ := if q < 0 then -(⌊-q⌋) else ⌊q⌋

/-- `hour_to_str` from daily_windows.py: `hour = int(hour_float)`,
`minute = int((hour_float - hour) * 60)`, formatted `HH:MM`. This is the
exact-rational reference semantics; the program truncates a binary float
lying within an ulp of the rational value, which can print one minute less
than this function (never more). Theorems about boundary ordering therefore
quantify over that one-minute-below envelope rather than relying on the
exact values alone. -/
def hour_to_str (hour_float : ℚ) : HHMM :=
  let hour := pyint hour_float
  let minute := pyint ((hour_float - hour) * 60)
  ⟨hour, minute⟩

/-- Result of the external `astral.sun.sun` call: the local hour and minute
of sunrise and sunset (`sunrise.hour`, `sunrise.minute`, ...). -/
structure SunTimes where
  sunrise_h : ℕ
  sunrise_m : ℕ
  sunset_h : ℕ
  sunset_m : ℕ
deriving DecidableEq, Repr

/-- The dictionary returned by `calculate_daily_windows`. -/
structure Windows where
  wschod_slonca : HHMM
  zachod_slonca : HHMM
  poczatek_okna_ladowania : HHMM
  koniec_okna_ladowania : HHMM
  poczatek_okna_wieczornego : HHMM
  koniec_okna_wieczornego : HHMM
  poczatek_okna_nocnego : HHMM
  koniec_okna_nocnego : HHMM
deriving DecidableEq, Repr

/-- The literal fallback dictionary returned from the `except` branch of
`calculate_daily_windows` (lines 96-105 of daily_windows.py). -/
def fallbackWindows : Windows :=
  { wschod_slonca := ⟨7, 33⟩
    zachod_slonca := ⟨15, 32⟩
    poczatek_okna_ladowania := ⟨9, 3⟩
    koniec_okna_ladowania := ⟨14, 2⟩
    poczatek_okna_wieczornego := ⟨14, 2⟩
    koniec_okna_wieczornego := ⟨23, 59⟩
    poczatek_okna_nocnego := ⟨0, 0⟩
    koniec_okna_nocnego := ⟨9, 2⟩ }

/-- `calculate_daily_windows`: the config lookup and the astral call sit
inside the `try` block; their combined outcome is the `astro` argument
(`Except.error` when any of them raised). The window arithmetic of the
success branch follows lines 59-84 of daily_windows.py, in exact rational
arithmetic; the program's float arithmetic can make each `hour_to_str`
boundary print one minute below these reference values (see `hour_to_str`),
which the boundary-ordering theorem accounts for explicitly. -/
def calculate_daily_windows (astro : Except String SunTimes) : Windows :=
  match astro with
  | .error _ => fallbackWindows
  | .ok s =>
    let sunrise_hour : ℚ := s.sunrise_h + s.sunrise_m / 60
    let sunset_hour : ℚ := s.sunset_h + s.sunset_m / 60
    let ladowania_start := sunrise_hour + 3 / 2
    let ladowania_end := sunset_hour - 3 / 2 + (1 / 60)
    let wieczorne_start := sunset_hour - 3 / 2
    let nocne_end := sunrise_hour + 3 / 2 - (1 / 60)
    { wschod_slonca := ⟨s.sunrise_h, s.sunrise_m⟩
      zachod_slonca := ⟨s.sunset_h, s.sunset_m⟩
      poczatek_okna_ladowania := hour_to_str ladowania_start
      koniec_okna_ladowania := hour_to_str ladowania_end
      poczatek_okna_wieczornego := hour_to_str wieczorne_start
      koniec_okna_wieczornego := ⟨23, 59⟩
      poczatek_okna_nocnego := ⟨0, 0⟩
      koniec_okna_nocnego := hour_to_str nocne_end }

/-- `parse_time` inside `get_current_window_simple`: '23:59' and '00:00' are
special-cased, otherwise the string parses back to `h + m/60`. The `except`
branch (unparseable string → 0.0) is unreachable on HHMM values, which by
construction always parse. -/
def parse_time (t : HHMM) : ℚ :=
  if t = ⟨23, 59⟩ then 23 + 59 / 60
  else if t = ⟨0, 0⟩ then 0
  else (t.h : ℚ) + (t.m : ℚ) / 60

/-- The three window labels returned by the classifier. -/
inductive WindowLabel where
  | loading_window
  | evening_window
  | night_window
deriving DecidableEq, Repr

/-- The classification logic of `get_current_window_simple` (lines 134-149
of daily_windows.py), as a function of the windows dictionary it reads:
evening is checked first, then night (with the midnight wrap-around
disjunct), then loading; each check is start-inclusive, end-exclusive. -/
def classify_hour (windows : Windows) (current_hour : ℚ) : Option WindowLabel :=
  let loading_start := parse_time windows.poczatek_okna_ladowania
  let loading_end := parse_time windows.koniec_okna_ladowania
  let evening_start := parse_time windows.poczatek_okna_wieczornego
  let evening_end := parse_time windows.koniec_okna_wieczornego
  let night_start := parse_time windows.poczatek_okna_nocnego
  let night_end := parse_time windows.koniec_okna_nocnego
  if evening_start ≤ current_hour ∧ current_hour < evening_end then
    some .evening_window
  else if (night_start ≤ current_hour ∧ current_hour < night_end) ∨
      (night_end < night_start ∧ (current_hour ≥ night_start ∨ current_hour < night_end)) then
    some .night_window
  else if loading_start ≤ current_hour ∧ current_hour < loading_end then
    some .loading_window
  else
    none

/-- `get_current_window_simple`: computes `current_hour = hour + minute/60`
from the current time and classifies it against the freshly calculated
windows. -/
def get_current_window_simple (astro : Except String SunTimes)
    (current_time : ℕ × ℕ) : Option WindowLabel :=
  let current_hour : ℚ := current_time.1 + current_time.2 / 60
  classify_hour (calculate_daily_windows astro) current_hour

/-- A windows dictionary with night-start 23:30 and night-end 06:00 (and the
other windows completed consistently: loading 09:03-14:02, evening
14:02-23:30), the classifier wrap-around scenario of the spec. -/
def wrapAroundWindows : Windows :=
  { wschod_slonca := ⟨7, 33⟩
    zachod_slonca := ⟨15, 32⟩
    poczatek_okna_ladowania := ⟨9, 3⟩
    koniec_okna_ladowania := ⟨14, 2⟩
    poczatek_okna_wieczornego := ⟨14, 2⟩
    koniec_okna_wieczornego := ⟨23, 30⟩
    poczatek_okna_nocnego := ⟨23, 30⟩
    koniec_okna_nocnego := ⟨6, 0⟩ }

set_option linter.unusedVariables false

/-- `get_current_window(latitude, longitude, current_time)`: the latitude and
longitude parameters are ignored (source comment: `calculate_daily_windows()`
takes the coordinates from the configuration). -/
def get_current_window (latitude longitude : Option ℚ)
    (astro : Except String SunTimes) (current_time : ℕ × ℕ) : Option WindowLabel :=
  get_current_window_simple astro current_time

end DailyWindows

namespace PvForecast

/-- The `MONTH_FACTORS` table of pv_forecast.py together with the
`.get(month, 1.0)` default for out-of-range months. -/
def MONTH_FACTORS (month : ℕ) : ℚ :=
  match month with
  | 1 => 1 / 2
  | 2 => 3 / 5
  | 3 => 7 / 10
  | 4 => 4 / 5
  | 5 => 1
  | 6 => 1
  | 7 => 1
  | 8 => 1
  | 9 => 9 / 10
  | 10 => 4 / 5
  | 11 => 3 / 5
  | 12 => 1 / 2
  | _ => 1

/-- `calculate_energy` (lines 80-102 of pv_forecast.py). The forecast series
is the parsed mapping, a list of (datetime, power) pairs with datetimes as
rational hours; `month` stands for `datetime.now(TIMEZONE).month`. Entries
before `from_time` are skipped, entries inside the half-open window
[start, stop) contribute their raw power, assuming one hour per entry
(`total_wh += power_w`); the sum is divided by 1000 and scaled by the
monthly correction factor. -/
def calculate_energy (forecast_data : List (ℚ × ℚ)) (start stop : ℚ)
    (from_time : Option ℚ) (month : ℕ) : ℚ :=
  let factor := MONTH_FACTORS month
  let total_wh : ℚ := forecast_data.foldl
    (fun acc entry =>
      let dt := entry.1
      let power_w := entry.2
      let skip : Bool := match from_time with | some ft => decide (dt < ft) | none => false
      if skip then acc
      else if start ≤ dt ∧ dt < stop then acc + power_w
      else acc)
    0
  total_wh / 1000 * factor

/-- One response of the external forecast endpoint, as `fetch_forecast`
inspects it: a 200 response carries the parsed `result` mapping and the
`X-Ratelimit-Remaining` header; otherwise a non-200 status or a raised
exception. -/
inductive ApiResponse where
  | ok (data : List (ℚ × ℚ)) (remaining : ℕ)
  | httpError (code : ℕ)
  | exn
deriving DecidableEq, Repr

/-- `fetch_forecast` (lines 58-77 of pv_forecast.py), run against a given
sequence of endpoint responses; the second component counts the requests
made. A 200 response with `X-Ratelimit-Remaining < 1` makes the function
sleep and retry itself unconditionally (`return fetch_forecast()`); any
other non-200 response or exception returns `None`. An exhausted response
list is read as the connection failing (the `except` branch). -/
def fetch_forecast : List ApiResponse → Option (List (ℚ × ℚ)) × ℕ
  | [] => (none, 0)
  | .ok data remaining :: rest =>
      if remaining < 1 then
        let r := fetch_forecast rest
        (r.1, r.2 + 1)
      else
        (some data, 1)
  | .httpError _ :: _ => (none, 1)
  | .exn :: _ => (none, 1)

/-- One persisted forecast record (the `prognoza` dict of pv_forecast.py);
the Python keys "data", "start", "end", "energia_kwh", "typ" become the
fields `data`, `start`, `stop`, `energia_kwh`, `typ`. -/
structure Prognoza where
  data : String
  start : DailyWindows.HHMM
  stop : DailyWindows.HHMM
  energia_kwh : ℚ
  typ : String
deriving DecidableEq, Repr

/-- State of the JSON history file as the load in `make_forecast` can find
it: readable and a list, readable but not a list, absent, or unparseable. -/
inductive FileState where
  | list (l : List Prognoza)
  | notAList
  | missing
  | corruptJson
deriving DecidableEq, Repr

/-- The persistence block of `make_forecast` (lines 146-171 of
pv_forecast.py): a missing file (`FileNotFoundError`), unparseable JSON
(`JSONDecodeError`) or a non-list document each reset the loaded data to the
empty list; the new record is appended and the whole list written back. -/
def save_prognoza (file : FileState) (p : Prognoza) : FileState :=
  let data : List Prognoza :=
    match file with
    | .list l => l
    | .notAList => []
    | .missing => []
    | .corruptJson => []
  .list (data ++ [p])

/-- Python `round(x, 2)`: round half to even at two decimal places. -/
def pyround2 (q : ℚ) : ℚ :=
  let x := q * 100
  let f := ⌊x⌋
  let r := x - f
  let n : ℤ := if r < 1 / 2 then f else if r > 1 / 2 then f + 1
    else if f % 2 = 0 then f else f + 1
  (n : ℚ) / 100

/-- `parse_window_time` inside `make_forecast`: an HH:MM string becomes the
time of day `h + m/60` on the current date (datetimes are rational hours). -/
def parse_window_time (t : DailyWindows.HHMM) : ℚ := (t.h : ℚ) + (t.m : ℚ) / 60

/-- `make_forecast` (lines 105-171 of pv_forecast.py). The windows, the
fetch outcome, the current month, date string and the history file state are
passed in explicitly. A falsy fetch result (`None` or an empty mapping)
logs an error and returns without touching the file; otherwise the energy is
integrated over the loading window (from 12:00 for the noon tick), the
record is built and appended to the history. Returns the record made (if
any) and the resulting file state. -/
def make_forecast (is_midnight : Bool) (windows : DailyWindows.Windows)
    (fetch_result : Option (List (ℚ × ℚ))) (month : ℕ) (date_iso : String)
    (file : FileState) : Option Prognoza × FileState :=
  let start := parse_window_time windows.poczatek_okna_ladowania
  let stop := parse_window_time windows.koniec_okna_ladowania
  match fetch_result with
  | none => (none, file)
  | some forecast_data =>
    if forecast_data.isEmpty then (none, file)
    else
      let energia_kwh :=
        if is_midnight then calculate_energy forecast_data start stop none month
        else calculate_energy forecast_data start stop (some 12) month
      let typ := if is_midnight then "calodzienna" else "popoludniowa"
      let from_time_str :=
        if is_midnight then windows.poczatek_okna_ladowania
        else (⟨12, 0⟩ : DailyWindows.HHMM)
      let prognoza : Prognoza :=
        { data := date_iso
          start := from_time_str
          stop := windows.koniec_okna_ladowania
          energia_kwh := pyround2 energia_kwh
          typ := typ }
      (some prognoza, save_prognoza file prognoza)

end PvForecast

namespace MqttSA

/-- A value stored in a snapshot section dict: a parsed float or a raw
string payload. -/
inductive Val where
  | num (q : ℚ)
  | str (s : String)
deriving DecidableEq, Repr

/-- One nested section dict of `current_data` (e.g. the `grid` dict),
modelled as an association list from field name to value. -/
def SectionD : Type := List (String × Val)

instance : DecidableEq SectionD := by unfold SectionD; exact inferInstance

/-- Python dict assignment `sec[k] = v`: replace the binding of `k` or add
it at the end. -/
def setField : SectionD → String → Val → SectionD
  | [], k, v => [(k, v)]
  | (k', v') :: rest, k, v =>
      if k' = k then (k, v) :: rest else (k', v') :: setField rest k v

/-- The mutable heap of section dicts; the five nested dicts of
`current_data` live at fixed addresses. -/
def Heap : Type := ℕ → SectionD

/-- In-place mutation of the dict at address `a`:
`heap[a][k] = v`. -/
def updateHeap (h : Heap) (a : ℕ) (k : String) (v : Val) : Heap :=
  fun a' => if a' = a then setField (h a) k v else h a'

/-- The top level of the `current_data` dict: plain values (`timestamp`,
`last_update`, `connected`) plus references to the five nested section
dicts. `dict.copy()` copies exactly this record: the plain values by value,
the nested dicts by reference. -/
structure CurrentData where
  timestamp : Option String
  last_update : Option String
  connected : Bool
  inverter : ℕ
  battery : ℕ
  grid : ℕ
  pv : ℕ
  load : ℕ
deriving DecidableEq, Repr

/-- Whole aggregator state: the top-level record, the heap of nested dicts
and the `data_cache` (topic → (value, timestamp)). All of `_on_message`
runs under `self.lock`, so one message is one atomic step of this state. -/
structure AggState where
  current_data : CurrentData
  heap : Heap
  data_cache : List (String × (String × String))

/-- The freshly constructed `SolarAssistantMQTT` state: empty nested dicts
at addresses 0-4, `timestamp`/`last_update` `None`, `connected` false. -/
def initState : AggState :=
  { current_data :=
      { timestamp := none
        last_update := none
        connected := false
        inverter := 0
        battery := 1
        grid := 2
        pv := 3
        load := 4 }
    heap := fun _ => []
    data_cache := [] }

/-- Python `needle in haystack` on lists of characters. -/
def isPrefixL : List Char → List Char → Bool
  | [], _ => true
  | _ :: _, [] => false
  | a :: as, b :: bs => a = b && isPrefixL as bs

/-- Python `needle in haystack` substring test. -/
def inStr (needle hay : String) : Bool :=
  go needle.toList hay.toList
where
  go (n : List Char) : List Char → Bool
    | [] => n.isEmpty
    | c :: rest => isPrefixL n (c :: rest) || go n rest

/-- Python `payload.replace('.', '', 1)`: drop the first dot, if any. -/
def removeFirstDot (s : String) : String :=
  ⟨go s.toList⟩
where
  go : List Char → List Char
    | [] => []
    | c :: rest => if c = '.' then rest else c :: go rest

/-- Python `str.isdigit()` on ASCII payloads: non-empty and all digits. -/
def pyIsDigit (s : String) : Bool :=
  !s.toList.isEmpty && s.toList.all Char.isDigit

/-- digits-to-number helper for `float(payload)`. -/
def digitsToNat (l : List Char) : ℕ :=
  l.foldl (fun acc c => acc * 10 + (c.toNat - '0'.toNat)) 0

/-- Python `float(payload)` on a payload whose dot-stripped form is all
digits: an optional-integer part, an optional fractional part. -/
def parseDecimal (s : String) : ℚ :=
  match s.toList.splitOn '.' with
  | [a] => digitsToNat a
  | [a, b] => (digitsToNat a : ℚ) + (digitsToNat b : ℚ) / (10 : ℚ) ^ b.length
  | _ => 0

/-- The coercion applied to every numeric snapshot field:
`float(payload) if payload.replace('.', '', 1).isdigit() else 0`. -/
def coerceNum (payload : String) : Val :=
  if pyIsDigit (removeFirstDot payload) then .num (parseDecimal payload)
  else .num 0

/-- `_parse_inverter_data` (lines 114-127 of mqtt_sa.py): dispatch on a
substring of the topic, write one nested field of the snapshot. -/
def parse_inverter_data (st : AggState) (topic payload : String) : AggState :=
  if inStr "grid_power" topic then
    { st with heap := updateHeap st.heap st.current_data.grid "power_w" (coerceNum payload) }
  else if inStr "pv_power" topic then
    { st with heap := updateHeap st.heap st.current_data.pv "power_w" (coerceNum payload) }
  else if inStr "load_power" topic then
    { st with heap := updateHeap st.heap st.current_data.load "power_w" (coerceNum payload) }
  else if inStr "output_source_priority" topic then
    { st with heap := updateHeap st.heap st.current_data.inverter "output_source" (.str payload) }
  else if inStr "charger_source_priority" topic then
    { st with heap := updateHeap st.heap st.current_data.inverter "charger_source" (.str payload) }
  else if inStr "max_grid_charge_current" topic then
    { st with heap := updateHeap st.heap st.current_data.inverter "max_grid_charge_a" (coerceNum payload) }
  else st

/-- `_parse_total_data` (lines 129-136 of mqtt_sa.py). -/
def parse_total_data (st : AggState) (topic payload : String) : AggState :=
  if inStr "battery_state_of_charge" topic then
    { st with heap := updateHeap st.heap st.current_data.battery "soc_percent" (coerceNum payload) }
  else if inStr "battery_power" topic then
    { st with heap := updateHeap st.heap st.current_data.battery "power_w" (coerceNum payload) }
  else if inStr "grid_power" topic then
    { st with heap := updateHeap st.heap st.current_data.grid "power_w" (coerceNum payload) }
  else st

/-- `_parse_battery_data` (lines 138-145 of mqtt_sa.py). -/
def parse_battery_data (st : AggState) (topic payload : String) : AggState :=
  if inStr "state_of_charge" topic then
    { st with heap := updateHeap st.heap st.current_data.battery "soc_percent" (coerceNum payload) }
  else if inStr "voltage" topic then
    { st with heap := updateHeap st.heap st.current_data.battery "voltage_v" (coerceNum payload) }
  else if inStr "current" topic then
    { st with heap := updateHeap st.heap st.current_data.battery "current_a" (coerceNum payload) }
  else st

/-- Python dict assignment on the cache. -/
def setCache (cache : List (String × (String × String))) (k : String)
    (v : String × String) : List (String × (String × String)) :=
  match cache with
  | [] => [(k, v)]
  | (k', v') :: rest => if k' = k then (k, v) :: rest else (k', v') :: setCache rest k v

/-- `_on_message` (lines 83-112 of mqtt_sa.py), one message processed under
the lock: update the cache, dispatch by topic substring to a parse function,
stamp `timestamp` (ISO string `now_iso`) and `last_update` (HH:MM:SS string
`now_hms`). -/
def on_message (st : AggState) (topic payload now_iso now_hms : String) : AggState :=
  let st1 := { st with data_cache := setCache st.data_cache topic (payload, now_iso) }
  let st2 :=
    if inStr "inverter_1" topic then parse_inverter_data st1 topic payload
    else if inStr "total" topic then parse_total_data st1 topic payload
    else if inStr "battery_1" topic then parse_battery_data st1 topic payload
    else st1
  { st2 with current_data :=
      { st2.current_data with timestamp := some now_iso, last_update := some now_hms } }

/-- `get_current_data` (lines 153-156 of mqtt_sa.py): under the lock,
`return self.current_data.copy()` — a shallow copy, i.e. exactly the
top-level `CurrentData` record (plain fields by value, nested dicts still
as references into the shared heap). -/
def get_current_data (st : AggState) : CurrentData :=
  st.current_data

/-- What a consumer holding a snapshot actually sees when it dereferences
the nested sections against the heap as it stands at observation time. -/
structure DeepData where
  timestamp : Option String
  last_update : Option String
  connected : Bool
  inverter : SectionD
  battery : SectionD
  grid : SectionD
  pv : SectionD
  load : SectionD
deriving DecidableEq

/-- Dereference a snapshot against a heap. -/
def deref (snap : CurrentData) (h : Heap) : DeepData :=
  { timestamp := snap.timestamp
    last_update := snap.last_update
    connected := snap.connected
    inverter := h snap.inverter
    battery := h snap.battery
    grid := h snap.grid
    pv := h snap.pv
    load := h snap.load }

end MqttSA

open DailyWindows PvForecast MqttSA

/-! ### Helper lemmas -/

theorem pyint_of_nonneg (q : ℚ) (h : 0 ≤ q) : pyint q = ⌊q⌋ := by
  unfold pyint
  rw [if_neg (not_lt.mpr h)]

theorem floor_natCast_div_sixty (n : ℕ) : ⌊(n : ℚ) / 60⌋ = ((n / 60 : ℕ) : ℤ) := by
  rw [Int.floor_eq_iff]
  constructor
  · rw [le_div_iff₀ (by norm_num : (0 : ℚ) < 60)]
    exact_mod_cast Nat.div_mul_le_self n 60
  · rw [div_lt_iff₀ (by norm_num : (0 : ℚ) < 60)]
    have hn : n < (n / 60 + 1) * 60 := by omega
    exact_mod_cast hn

theorem hour_to_str_div60 (n : ℕ) :
    hour_to_str ((n : ℚ) / 60) = ⟨((n / 60 : ℕ) : ℤ), ((n % 60 : ℕ) : ℤ)⟩ := by
  have h0 : (0 : ℚ) ≤ (n : ℚ) / 60 := by positivity
  show (⟨pyint ((n : ℚ) / 60),
      pyint (((n : ℚ) / 60 - (pyint ((n : ℚ) / 60) : ℚ)) * 60)⟩ : HHMM) = _
  rw [pyint_of_nonneg _ h0, floor_natCast_div_sixty]
  have hc : (60 : ℚ) * ((n / 60 : ℕ) : ℚ) + ((n % 60 : ℕ) : ℚ) = (n : ℚ) := by
    exact_mod_cast Nat.div_add_mod n 60
  have hfrac : ((n : ℚ) / 60 - ((((n / 60 : ℕ) : ℤ)) : ℚ)) * 60 = ((n % 60 : ℕ) : ℚ) := by
    rw [Int.cast_natCast]
    have expand : ((n : ℚ) / 60 - ((n / 60 : ℕ) : ℚ)) * 60 =
        (n : ℚ) - 60 * ((n / 60 : ℕ) : ℚ) := by
      field_simp
    rw [expand]
    linarith
  rw [hfrac, pyint_of_nonneg _ (by positivity), Int.floor_natCast]

theorem hhmmMinutes_div60 (n : ℕ) :
    hhmmMinutes ⟨((n / 60 : ℕ) : ℤ), ((n % 60 : ℕ) : ℤ)⟩ = (n : ℤ) := by
  show ((n / 60 : ℕ) : ℤ) * 60 + ((n % 60 : ℕ) : ℤ) = (n : ℤ)
  omega

theorem fetch_forecast_rateLimited_run (n : ℕ) (rs : List ApiResponse) :
    fetch_forecast (List.replicate n (.ok [] 0) ++ rs) =
      ((fetch_forecast rs).1, (fetch_forecast rs).2 + n) := by
  induction n with
  | zero => simp
  | succ k ih =>
    rw [List.replicate_succ, List.cons_append]
    show (if (0 : ℕ) < 1 then
        let r := fetch_forecast (List.replicate k (.ok [] 0) ++ rs)
        (r.1, r.2 + 1)
      else (some [], 1)) = _
    rw [if_pos (by norm_num : (0 : ℕ) < 1)]
    rw [show (let r := fetch_forecast (List.replicate k (.ok [] 0) ++ rs)
        (r.1, r.2 + 1)) =
        ((fetch_forecast (List.replicate k (.ok [] 0) ++ rs)).1,
          (fetch_forecast (List.replicate k (.ok [] 0) ++ rs)).2 + 1) from rfl, ih]
    simp only [Prod.mk.injEq, true_and]
    omega

theorem lookup_setField (sec : SectionD) (k : String) (v : Val) :
    List.lookup k (setField sec k v) = some v := by
  induction sec with
  | nil => simp [setField, List.lookup]
  | cons hd tl ih =>
    obtain ⟨k', v'⟩ := hd
    by_cases h : k' = k
    · simp [setField, h, List.lookup]
    · have hbeq : (k == k') = false := by
        simp [Ne.symm h]
      simp only [setField, if_neg h, List.lookup, hbeq]
      exact ih

theorem updateHeap_self (h : Heap) (a : ℕ) (k : String) (v : Val) :
    updateHeap h a k v a = setField (h a) k v := by
  simp [updateHeap]

theorem parse_inverter_data_cd (st : AggState) (topic payload : String) :
    (parse_inverter_data st topic payload).current_data = st.current_data := by
  unfold parse_inverter_data
  repeat' split
  all_goals rfl

theorem parse_total_data_cd (st : AggState) (topic payload : String) :
    (parse_total_data st topic payload).current_data = st.current_data := by
  unfold parse_total_data
  repeat' split
  all_goals rfl

theorem parse_battery_data_cd (st : AggState) (topic payload : String) :
    (parse_battery_data st topic payload).current_data = st.current_data := by
  unfold parse_battery_data
  repeat' split
  all_goals rfl

theorem on_message_cd (st : AggState) (topic payload now_iso now_hms : String) :
    (on_message st topic payload now_iso now_hms).current_data =
      { st.current_data with timestamp := some now_iso, last_update := some now_hms } := by
  unfold on_message
  dsimp only
  split
  · rw [parse_inverter_data_cd]
  · split
    · rw [parse_total_data_cd]
    · split
      · rw [parse_battery_data_cd]
      · rfl

theorem fetch_forecast_attempts_replicate (n : ℕ) :
    (fetch_forecast (List.replicate n (.ok [] 0))).2 = n := by
  induction n with
  | zero => rfl
  | succ k ih =>
    rw [List.replicate_succ]
    show (fetch_forecast (List.replicate k (.ok [] 0))).2 + 1 = k + 1
    rw [ih]

/-! ### Claim theorems -/

/-- Claim C1, counterexample: integrating the series {10:00 → 1000 W,
11:00 → 2000 W} over [10:00, 11:00) with correction factor 1.0 (month 6)
does not yield the 1.5 kWh the trapezoidal rule would give. -/
theorem c1_counterexample :
    MONTH_FACTORS 6 = 1 ∧
      calculate_energy [(10, 1000), (11, 2000)] 10 11 none 6 ≠ 3 / 2 := by
  constructor
  · norm_num [MONTH_FACTORS]
  · norm_num [calculate_energy, MONTH_FACTORS]

/-- Claim C1, amended: `calculate_energy` uses the flat per-sample
convention (each in-window sample is one hour at its power, the 11:00
endpoint being excluded by the half-open window), so the series
{10:00 → 1000 W, 11:00 → 2000 W} over [10:00, 11:00) with correction
factor 1.0 yields 1.0 kWh, not the trapezoidal 1.5 kWh. -/
theorem c1_amended_flat_sum :
    calculate_energy [(10, 1000), (11, 2000)] 10 11 none 6 = 1 := by
  norm_num [calculate_energy, MONTH_FACTORS]

/-- Claim C2, counterexample: `get_current_data` returns a shallow copy.
After message 1 (grid power 1000, timestamp T1) a snapshot is taken; after
message 2 (grid power 2000, timestamp T2) the holder of that snapshot
observes grid power 2000 from message 2 together with timestamp T1 from
message 1 — a mixed record — and the snapshot's grid entry is the very
reference the aggregator keeps mutating, not a copy. -/
theorem c2_counterexample :
    (deref
        (get_current_data
          (on_message initState "SZE/inverter_1/grid_power" "1000" "T1" "10:00:01"))
        (on_message
          (on_message initState "SZE/inverter_1/grid_power" "1000" "T1" "10:00:01")
          "SZE/inverter_1/grid_power" "2000" "T2" "10:00:02").heap).timestamp =
      some "T1" ∧
    List.lookup "power_w"
      (deref
        (get_current_data
          (on_message initState "SZE/inverter_1/grid_power" "1000" "T1" "10:00:01"))
        (on_message
          (on_message initState "SZE/inverter_1/grid_power" "1000" "T1" "10:00:01")
          "SZE/inverter_1/grid_power" "2000" "T2" "10:00:02").heap).grid =
      some (Val.num 2000) ∧
    (get_current_data
        (on_message initState "SZE/inverter_1/grid_power" "1000" "T1" "10:00:01")).grid =
      (on_message
        (on_message initState "SZE/inverter_1/grid_power" "1000" "T1" "10:00:01")
        "SZE/inverter_1/grid_power" "2000" "T2" "10:00:02").current_data.grid := by
  refine ⟨by decide, by decide, by decide⟩

/-- Claim C2, amended: a read returns, under the lock, a shallow copy of
`current_data`: its top-level fields (e.g. the timestamp) are the values at
read time and later messages do not change them, but its five nested
section entries are references shared with the aggregator, so after any
later message the sections seen through the stale snapshot are exactly the
aggregator's current ones. -/
theorem c2_amended_shallow_copy (st : AggState)
    (topic payload now_iso now_hms : String) :
    (get_current_data st).timestamp = st.current_data.timestamp ∧
    (deref (get_current_data st)
        (on_message st topic payload now_iso now_hms).heap).inverter =
      (on_message st topic payload now_iso now_hms).heap
        (on_message st topic payload now_iso now_hms).current_data.inverter ∧
    (deref (get_current_data st)
        (on_message st topic payload now_iso now_hms).heap).battery =
      (on_message st topic payload now_iso now_hms).heap
        (on_message st topic payload now_iso now_hms).current_data.battery ∧
    (deref (get_current_data st)
        (on_message st topic payload now_iso now_hms).heap).grid =
      (on_message st topic payload now_iso now_hms).heap
        (on_message st topic payload now_iso now_hms).current_data.grid ∧
    (deref (get_current_data st)
        (on_message st topic payload now_iso now_hms).heap).pv =
      (on_message st topic payload now_iso now_hms).heap
        (on_message st topic payload now_iso now_hms).current_data.pv ∧
    (deref (get_current_data st)
        (on_message st topic payload now_iso now_hms).heap).load =
      (on_message st topic payload now_iso now_hms).heap
        (on_message st topic payload now_iso now_hms).current_data.load := by
  refine ⟨rfl, ?_, ?_, ?_, ?_, ?_⟩ <;>
    simp [deref, get_current_data, on_message_cd]

/-- Claim C3, counterexample: there is no uniform bound on the number of
requests `fetch_forecast` makes — for any proposed bound N, a run of N+1
rate-limited responses forces N+1 requests. -/
theorem c3_counterexample :
    ¬ ∃ N : ℕ, ∀ rs : List ApiResponse, (fetch_forecast rs).2 ≤ N := by
  rintro ⟨N, hN⟩
  have h := hN (List.replicate (N + 1) (.ok [] 0))
  rw [fetch_forecast_attempts_replicate] at h
  omega

/-- Claim C3, amended: on each rate-limited response `fetch_forecast`
sleeps and retries itself unconditionally, with no attempt counter: after n
rate-limited responses followed by one non-rate-limited success it has made
n + 1 requests and returns the data, for every n. It terminates only
because some response is eventually not rate-limited. -/
theorem c3_amended_unbounded_retry (n : ℕ) (d : List (ℚ × ℚ)) :
    fetch_forecast (List.replicate n (.ok [] 0) ++ [.ok d 5]) = (some d, n + 1) := by
  rw [fetch_forecast_rateLimited_run]
  show (some d, 1 + n) = (some d, n + 1)
  rw [Nat.add_comm]

/-- Claim C4, counterexample: the numeric payload "-100" (a valid float,
e.g. power flowing out) fails the `payload.replace('.', '', 1).isdigit()`
check, so it is coerced to 0 instead of being stored as its parsed float
value -100. -/
theorem c4_counterexample :
    List.lookup "power_w"
      ((parse_inverter_data initState "SZE/inverter_1/grid_power" "-100").heap
        initState.current_data.grid) = some (Val.num 0) ∧
    Val.num 0 ≠ Val.num (-100) := by
  constructor
  · decide
  · intro h
    have h0 : (0 : ℚ) = -100 := Val.num.inj h
    norm_num at h0

/-- Claim C4, amended: ingestion never fails — every payload is coerced to
some numeric value and stored; payloads that are non-negative decimal
literals (all digits once the first dot is removed) are stored as their
parsed float value, and every other payload — including negative numbers
like "-100" — is coerced to 0. -/
theorem c4_amended_coercion (st : AggState) (payload : String) :
    (∃ q : ℚ, coerceNum payload = Val.num q) ∧
    List.lookup "power_w"
      ((parse_inverter_data st "SZE/inverter_1/grid_power" payload).heap
        st.current_data.grid) = some (coerceNum payload) ∧
    coerceNum "450" = Val.num 450 ∧
    coerceNum "85.5" = Val.num (171 / 2) ∧
    coerceNum "abc" = Val.num 0 ∧
    coerceNum "" = Val.num 0 ∧
    coerceNum "-100" = Val.num 0 := by
  refine ⟨?_, ?_, by decide, ?_, by decide, by decide, by decide⟩
  · unfold coerceNum
    split
    · exact ⟨_, rfl⟩
    · exact ⟨0, rfl⟩
  · show List.lookup "power_w"
        (updateHeap st.heap st.current_data.grid "power_w" (coerceNum payload)
          st.current_data.grid) = some (coerceNum payload)
    rw [updateHeap_self, lookup_setField]
  · have hd : pyIsDigit (removeFirstDot "85.5") = true := by decide
    rw [coerceNum, if_pos hd]
    have hp : parseDecimal "85.5" =
        ((85 : ℕ) : ℚ) + ((5 : ℕ) : ℚ) / (10 : ℚ) ^ (1 : ℕ) := rfl
    rw [hp]
    norm_num

/-- Claim C5, counterexample: a valid short winter day — sunrise 10:00,
sunset 12:00 (sunrise strictly before sunset) — produces loading-window
start 11:30 after loading-window end 10:31, violating the claimed
invariant. -/
theorem c5_counterexample :
    hhmmMinutes (calculate_daily_windows (.ok ⟨10, 0, 12, 0⟩)).wschod_slonca <
      hhmmMinutes (calculate_daily_windows (.ok ⟨10, 0, 12, 0⟩)).zachod_slonca ∧
    ¬ (hhmmMinutes (calculate_daily_windows (.ok ⟨10, 0, 12, 0⟩)).poczatek_okna_ladowania <
      hhmmMinutes (calculate_daily_windows (.ok ⟨10, 0, 12, 0⟩)).koniec_okna_ladowania) := by
  norm_num [calculate_daily_windows, hour_to_str, pyint, hhmmMinutes]

/-- Claim C5, amended: when the astral call succeeds, the output preserves
sunrise < sunset. The program computes each loading-window boundary in
binary floating point and truncates with `int()`, so the boundary it prints
is the exact whole-minute value or one minute less, never more; `startM` and
`endM` below range over every outcome in that envelope around the exact
values given by `hour_to_str`. For any such outcome, loading-window start <
loading-window end whenever sunset is at least 181 minutes after sunrise.
At exactly 180 minutes the program can produce start = end (sunrise 05:57,
sunset 08:57 both print 07:27), and shorter valid days invert the window. -/
theorem c5_amended_float_envelope (s : SunTimes) (startM endM : ℤ)
    (hstart : hhmmMinutes (calculate_daily_windows (.ok s)).poczatek_okna_ladowania - 1 ≤ startM ∧
      startM ≤ hhmmMinutes (calculate_daily_windows (.ok s)).poczatek_okna_ladowania)
    (hend : hhmmMinutes (calculate_daily_windows (.ok s)).koniec_okna_ladowania - 1 ≤ endM ∧
      endM ≤ hhmmMinutes (calculate_daily_windows (.ok s)).koniec_okna_ladowania)
    (h : 60 * s.sunrise_h + s.sunrise_m + 181 ≤ 60 * s.sunset_h + s.sunset_m) :
    hhmmMinutes (calculate_daily_windows (.ok s)).wschod_slonca <
        hhmmMinutes (calculate_daily_windows (.ok s)).zachod_slonca ∧
      startM < endM := by
  have e1 : (s.sunrise_h : ℚ) + (s.sunrise_m : ℚ) / 60 + 3 / 2 =
      ((60 * s.sunrise_h + s.sunrise_m + 90 : ℕ) : ℚ) / 60 := by
    push_cast
    ring
  have h89 : 89 ≤ 60 * s.sunset_h + s.sunset_m := by omega
  have e2 : (s.sunset_h : ℚ) + (s.sunset_m : ℚ) / 60 - 3 / 2 + 1 / 60 =
      ((60 * s.sunset_h + s.sunset_m - 89 : ℕ) : ℚ) / 60 := by
    rw [Nat.cast_sub h89]
    push_cast
    ring
  have hex1 : hhmmMinutes (calculate_daily_windows (.ok s)).poczatek_okna_ladowania =
      ((60 * s.sunrise_h + s.sunrise_m + 90 : ℕ) : ℤ) := by
    show hhmmMinutes (hour_to_str ((s.sunrise_h : ℚ) + (s.sunrise_m : ℚ) / 60 + 3 / 2)) = _
    rw [e1, hour_to_str_div60, hhmmMinutes_div60]
  have hex2 : hhmmMinutes (calculate_daily_windows (.ok s)).koniec_okna_ladowania =
      ((60 * s.sunset_h + s.sunset_m - 89 : ℕ) : ℤ) := by
    show hhmmMinutes (hour_to_str ((s.sunset_h : ℚ) + (s.sunset_m : ℚ) / 60 - 3 / 2 + 1 / 60)) = _
    rw [e2, hour_to_str_div60, hhmmMinutes_div60]
  rw [hex1] at hstart
  rw [hex2] at hend
  constructor
  · show (s.sunrise_h : ℤ) * 60 + (s.sunrise_m : ℤ) <
      (s.sunset_h : ℤ) * 60 + (s.sunset_m : ℤ)
    omega
  · omega

/-- Witness for the amended C5 theorem at sunrise 07:33, sunset 15:32, with
the program's own float-truncated boundaries 09:03 (543 min, the exact
value) and 14:02 (842 min, one minute below the exact 14:03). -/
theorem c5_amended_float_envelope_witness :
    (hhmmMinutes (calculate_daily_windows (.ok ⟨7, 33, 15, 32⟩)).poczatek_okna_ladowania - 1 ≤ 543 ∧
      (543 : ℤ) ≤ hhmmMinutes (calculate_daily_windows (.ok ⟨7, 33, 15, 32⟩)).poczatek_okna_ladowania) ∧
    (hhmmMinutes (calculate_daily_windows (.ok ⟨7, 33, 15, 32⟩)).koniec_okna_ladowania - 1 ≤ 842 ∧
      (842 : ℤ) ≤ hhmmMinutes (calculate_daily_windows (.ok ⟨7, 33, 15, 32⟩)).koniec_okna_ladowania) ∧
    60 * 7 + 33 + 181 ≤ 60 * 15 + 32 ∧
    (hhmmMinutes (calculate_daily_windows (.ok ⟨7, 33, 15, 32⟩)).wschod_slonca <
        hhmmMinutes (calculate_daily_windows (.ok ⟨7, 33, 15, 32⟩)).zachod_slonca ∧
      (543 : ℤ) < 842) :=
  ⟨by norm_num [calculate_daily_windows, hour_to_str, pyint, hhmmMinutes],
    by norm_num [calculate_daily_windows, hour_to_str, pyint, hhmmMinutes],
    by norm_num,
    c5_amended_float_envelope ⟨7, 33, 15, 32⟩ 543 842
      (by norm_num [calculate_daily_windows, hour_to_str, pyint, hhmmMinutes])
      (by norm_num [calculate_daily_windows, hour_to_str, pyint, hhmmMinutes])
      (by norm_num)⟩

/-- Claim C6: with night-start 23:30 and night-end 06:00 the classifier
maps 23:45 and 02:00 to night (wrap-around), 12:00 to loading and 23:29 to
evening; the extra conjuncts exhibit start-inclusive, end-exclusive
checking (23:30 itself is night, 06:00 is past the night window, 14:02 and
09:03 are the first instants of evening and loading) with evening evaluated
before night before loading. -/
theorem c6_classifier_wraparound :
    (classify_hour wrapAroundWindows (23 + 45 / 60) = some .night_window) ∧
    (classify_hour wrapAroundWindows 2 = some .night_window) ∧
    (classify_hour wrapAroundWindows 12 = some .loading_window) ∧
    (classify_hour wrapAroundWindows (23 + 29 / 60) = some .evening_window) ∧
    (classify_hour wrapAroundWindows (23 + 30 / 60) = some .night_window) ∧
    (classify_hour wrapAroundWindows 6 = none) ∧
    (classify_hour wrapAroundWindows (14 + 2 / 60) = some .evening_window) ∧
    (classify_hour wrapAroundWindows (9 + 3 / 60) = some .loading_window) := by
  refine ⟨?_, ?_, ?_, ?_, ?_, ?_, ?_, ?_⟩ <;>
    norm_num [wrapAroundWindows, classify_hour, parse_time]

/-- Claim C7: when the fetch fails (returns `None`), `make_forecast`
returns without raising — no forecast record is produced — and the history
file is left untouched. -/
theorem c7_fetch_failure_skips_tick (is_midnight : Bool)
    (windows : DailyWindows.Windows) (month : ℕ) (date_iso : String)
    (file : FileState) :
    make_forecast is_midnight windows none month date_iso file = (none, file) := rfl

/-- Claim C8: whenever the window calculation fails internally (any raised
exception reaching the `except` branch), `calculate_daily_windows` returns
the single fixed fallback dictionary instead of propagating the failure. -/
theorem c8_calculation_failure_fallback (e : String) :
    calculate_daily_windows (.error e) = fallbackWindows := rfl

/-- Claim C9: persisting a ForecastResult appends exactly one entry.
A well-formed stored list gains the new record at the end with previous
entries unchanged; a missing, unparseable, or non-list store is treated as
empty and the write still succeeds, producing exactly the new record. -/
theorem c9_persistence_recovery (p : Prognoza) (l : List Prognoza) :
    save_prognoza (.list l) p = .list (l ++ [p]) ∧
    save_prognoza .missing p = .list [p] ∧
    save_prognoza .corruptJson p = .list [p] ∧
    save_prognoza .notAList p = .list [p] :=
  ⟨rfl, rfl, rfl, rfl⟩

/-- Claim C10: `get_current_window` ignores its latitude and longitude
arguments — any two coordinate pairs give equal results for the same
configuration-and-astral outcome and the same current time. -/
theorem c10_coordinates_ignored (la1 lo1 la2 lo2 : Option ℚ)
    (astro : Except String SunTimes) (current_time : ℕ × ℕ) :
    get_current_window la1 lo1 astro current_time =
      get_current_window la2 lo2 astro current_time := rfl
